import Mathlib

/-!
Verification development for the PRD-generation pipeline
(`src/PRDAgent/prd_agent.py`).  Python strings are modelled as lists of
characters (`Str`); Python `dict`s as insertion-ordered association lists;
floating-point "token estimates" as exact rationals.  Each Python helper of
the orchestration/budgeting pipeline is translated into an executable Lean
definition, and the stated properties are settled against those definitions.
-/

namespace PRD

/-- Model of a Python string: a list of characters. -/
abbrev Str := List Char

/-- Conversion from a Lean string literal to the char-list model. -/
def strLit (s : String) : Str := s.data

/-- Whitespace predicate used by Python `str.split()` / `str.strip()`
(space, newline, tab, carriage return). -/
def isWS (c : Char) : Bool := c = ' ' ∨ c = '\n' ∨ c = '\t' ∨ c = '\r'

/-- Split a string at every whitespace character, keeping empty pieces
(auxiliary for `words`). -/
def splitP : Str → List Str
  | [] => [[]]
  | c :: rest => if isWS c then [] :: splitP rest else (splitP rest).modifyHead (c :: ·)

/-- Python `str.split()` (no argument): whitespace-delimited words, empty
pieces dropped. -/
def words (s : Str) : List Str := (splitP s).filter (· ≠ [])

/-- Word count of a string (length of `words`). -/
def wc (s : Str) : Nat := (words s).length

/-- Python `str.split(sep)` for a one-character separator: keeps empty
pieces (`"a\n\nb".split('\n') = ["a", "", "b"]`). -/
def splitOnChar (sep : Char) : Str → List Str
  | [] => [[]]
  | c :: rest =>
    if c = sep then [] :: splitOnChar sep rest
    else (splitOnChar sep rest).modifyHead (c :: ·)

/-- Python `str.split('\n')`. -/
def linesOf (s : Str) : List Str := splitOnChar '\n' s

/-- Python `str.split('\n\n')`: greedy left-to-right split on the two-newline
delimiter. -/
def splitBlank : Str → List Str
  | '\n' :: '\n' :: rest => [] :: splitBlank rest
  | c :: rest => (splitBlank rest).modifyHead (c :: ·)
  | [] => [[]]

/-- Python `sep.join(parts)`. -/
def joinSep (sep : Str) : List Str → Str
  | [] => []
  | [p] => p
  | p :: rest => p ++ sep ++ joinSep sep rest

/-- Python `str.strip()`. -/
def strip (s : Str) : Str :=
  ((s.dropWhile isWS).reverse.dropWhile isWS).reverse

/-- Python `str.lower()` (ASCII lowering, the only case arising here). -/
def lower (s : Str) : Str := s.map Char.toLower

/-- Python substring test `pat in s`. -/
def containsSubstr (s pat : Str) : Bool := s.tails.any (fun t => pat.isPrefixOf t)

/-- Python `str.startswith(p)`. -/
def startsWith (p s : Str) : Bool := p.isPrefixOf s

/-- Python `str.startswith((p1, p2, ...))`. -/
def startsWithAny (ps : List Str) (s : Str) : Bool := ps.any (fun p => startsWith p s)

/-- Python `str.endswith(c)` for a single character. -/
def endsWithChar (c : Char) (s : Str) : Bool :=
  match s.getLast? with
  | some d => d = c
  | none => false

/-- Python `str.lstrip(chars)`: drop leading characters belonging to a set. -/
def lstripSet (cs : List Char) (s : Str) : Str := s.dropWhile (· ∈ cs)

/-- Python `str.replace(old, new)` for removing a single character
(`.replace(':', '')`). -/
def removeChar (c : Char) (s : Str) : Str := s.filter (· ≠ c)

/-- Python list slice `l[-n:]` for `n > 0` (last `n` elements, or the whole
list when `n ≥ len`). -/
def takeLast (n : Nat) (l : List α) : List α := l.drop (l.length - n)

/-- Python list slice `l[:-n]`: all but the last `n` elements. -/
def dropLastN (n : Nat) (l : List α) : List α := l.take (l.length - n)

/-- Python list slice `l[:k]` for an `int` bound `k`, which may be negative
(`l[:-m]` keeps all but the last `m` elements). -/
def pySliceTo (l : List α) (k : Int) : List α :=
  if 0 ≤ k then l.take k.toNat else l.take (l.length - (-k).toNat)

/-- Python slice `l[-(m//d):]` as it appears in `words[-max_length//3:]`:
`(-m)//d` floor-divides to `-⌈m/d⌉`, and a `-0` bound selects the whole
list. -/
def negDivSlice (m d : Nat) (l : List α) : List α :=
  if m = 0 then l else takeLast ((m + d - 1) / d) l

/-- Python `f"{n:03d}"` for the requirement ids (1 ≤ n ≤ 999 in practice). -/
def pad3 (n : Nat) : Str :=
  let ds := Nat.toDigits 10 n
  if n < 10 then '0' :: '0' :: ds
  else if n < 100 then '0' :: ds
  else ds

/-- Python `word.title()` for the single lowercase action words it is applied
to: capitalize the first character (the remaining characters are already
lowercase in every call site). -/
def titleWord (w : Str) : Str :=
  match w with
  | [] => []
  | c :: r => Char.toUpper c :: r

/-- Whether a string begins with a non-whitespace character (auxiliary
predicate for word-count reasoning). -/
def startsNonWS : Str → Bool
  | [] => false
  | c :: _ => !isWS c

/-- Word-count estimate 1.3 × words, the "Token Estimator"
(`len(text.split()) * 1.3`). -/
def estimated_tokens (s : Str) : ℚ := (wc s : ℚ) * 13 / 10

/-- Lookup with default in an insertion-ordered association list
(Python `dict.get(key, default)`). -/
def getD (l : List (Str × Str)) (key : Str) (deflt : Str) : Str :=
  match l.find? (fun p => p.1 = key) with
  | some p => p.2
  | none => deflt

/-! ### Coverage Scorer (`_analyze_circles_coverage`) -/

/-- Fixed dimension table of `_analyze_circles_coverage`: step key, display
name, keyword list — in the source's insertion order. -/
def dimensionTable : List (Str × Str × List Str) :=
  [ (strLit "C1_Comprehend", strLit "Comprehend the Situation",
      [strLit "problem", strLit "context", strLit "background", strLit "situation",
       strLit "challenge", strLit "current state", strLit "market"]),
    (strLit "I_Identify", strLit "Identify the Customer",
      [strLit "user", strLit "customer", strLit "persona", strLit "stakeholder",
       strLit "target", strLit "demographics", strLit "segment"]),
    (strLit "R_Report", strLit "Report Customer Needs",
      [strLit "requirement", strLit "need", strLit "feature", strLit "functionality",
       strLit "specification", strLit "acceptance criteria", strLit "user story"]),
    (strLit "C2_Cut", strLit "Cut Through Prioritization",
      [strLit "priority", strLit "must have", strLit "should have", strLit "could have",
       strLit "prioritization", strLit "mvp", strLit "essential"]),
    (strLit "L_List", strLit "List Solutions",
      [strLit "solution", strLit "approach", strLit "option", strLit "alternative",
       strLit "implementation", strLit "design", strLit "architecture"]),
    (strLit "E_Evaluate", strLit "Evaluate Trade-offs",
      [strLit "trade-off", strLit "pros", strLit "cons", strLit "comparison",
       strLit "evaluation", strLit "risk", strLit "benefit", strLit "cost"]),
    (strLit "S_Summarize", strLit "Summarize Recommendations",
      [strLit "recommendation", strLit "conclusion", strLit "next steps", strLit "summary",
       strLit "decision", strLit "action plan", strLit "timeline"]) ]

/-- Keyword lists of the 7 coverage dimensions. -/
def dimensionKeywords : List (List Str) := dimensionTable.map (fun d => d.2.2)

/-- Keywords of a dimension found in the lowered document
(`[kw for kw in keywords if kw in content_lower]`). -/
def foundKeywords (keywords : List Str) (content_lower : Str) : List Str :=
  keywords.filter (fun kw => containsSubstr content_lower kw)

/-- Raw keyword coverage of one dimension:
`(len(found_keywords) / len(keywords)) * 100`. -/
def baseCoverage (keywords : List Str) (content_lower : Str) : ℚ :=
  ((foundKeywords keywords content_lower).length : ℚ) / (keywords.length : ℚ) * 100

/-- A dimension's `coverage_percentage`: the raw coverage, boosted by ×1.5
(some keyword matched) or ×1.2 (none matched) and clamped to 100 when the
framework-executed flag is set. -/
def coveragePercentage (hasExec : Bool) (keywords : List Str) (content_lower : Str) : ℚ :=
  let base := baseCoverage keywords content_lower
  if hasExec then
    let boost : ℚ := if (foundKeywords keywords content_lower).length > 0 then 3/2 else 6/5
    min 100 (base * boost)
  else base

/-- A dimension's `covered` flag: threshold `> 20` when the
framework-executed flag is set, otherwise "at least one keyword matched". -/
def coveredFlag (hasExec : Bool) (keywords : List Str) (content_lower : Str) : Bool :=
  if hasExec then decide (coveragePercentage hasExec keywords content_lower > 20)
  else decide ((foundKeywords keywords content_lower).length > 0)

/-- Phrases whose presence marks "comprehensive CIRCLES execution". -/
def circles_execution_indicators : List Str :=
  [strLit "circles framework", strLit "circles analysis", strLit "comprehend the situation",
   strLit "identify the customer", strLit "report customer needs",
   strLit "cut through prioritization", strLit "list solutions",
   strLit "evaluate trade-offs", strLit "summarize recommendations"]

/-- The framework-executed flag: any execution indicator occurs in the
lowered document. -/
def has_circles_execution (content_lower : Str) : Bool :=
  circles_execution_indicators.any (fun ind => containsSubstr content_lower ind)

/-- Indicators of a "comprehensive PRD structure". -/
def comprehensive_indicators : List Str :=
  [strLit "requirements table", strLit "personas table", strLit "stakeholder matrix",
   strLit "success metrics", strLit "implementation plan", strLit "acceptance criteria",
   strLit "user stories", strLit "functional requirements", strLit "non-functional requirements"]

/-- Count of comprehensive-structure indicators present in the document. -/
def comprehensive_score (content_lower : Str) : Nat :=
  (comprehensive_indicators.filter (fun ind => containsSubstr content_lower ind)).length

/-- Structure bonus: `min(20, comprehensive_score * 2)`. -/
def comprehensiveness_boost (content_lower : Str) : ℚ :=
  min 20 ((comprehensive_score content_lower : ℚ) * 2)

/-- Mean of the 7 dimension scores
(`sum(coverage_percentage) / len(circles_analysis)`). -/
def mean_dimension_score (content_lower : Str) : ℚ :=
  (dimensionKeywords.map
    (fun kws => coveragePercentage (has_circles_execution content_lower) kws content_lower)).sum
    / (dimensionKeywords.length : ℚ)

/-- Per-dimension slice of the coverage report. -/
structure DimResult where
  name : Str
  found_keywords : List Str
  covered : Bool
  coverage_percentage : ℚ
deriving DecidableEq

/-- Result of `_analyze_circles_coverage`. -/
structure CoverageReport where
  steps : List (Str × DimResult)
  overall_coverage : ℚ
  circles_framework_executed : Bool
  comprehensive_structure : Bool
  analysis_quality : Str
deriving DecidableEq

/-- Embedding of `_analyze_circles_coverage`: keyword scores per dimension,
the framework-execution boost, the structure bonus, and the aggregate with
its two clamps. -/
def analyze_circles_coverage (prd_content : Str) : CoverageReport :=
  let content_lower := lower prd_content
  let hasExec := has_circles_execution content_lower
  let steps := dimensionTable.map (fun d =>
    (d.1, { name := d.2.1
            found_keywords := foundKeywords d.2.2 content_lower
            covered := coveredFlag hasExec d.2.2 content_lower
            coverage_percentage := coveragePercentage hasExec d.2.2 content_lower : DimResult }))
  let compScore := comprehensive_score content_lower
  let base_overall := mean_dimension_score content_lower
  let overall :=
    if hasExec && decide (compScore ≥ 5) then
      min 95 (base_overall + comprehensiveness_boost content_lower)
    else if hasExec then min 85 (base_overall + 15)
    else base_overall
  { steps := steps
    overall_coverage := overall
    circles_framework_executed := hasExec
    comprehensive_structure := decide (compScore ≥ 5)
    analysis_quality :=
      if 80 ≤ overall then strLit "Excellent"
      else if 60 ≤ overall then strLit "Good"
      else strLit "Basic" }

/-! ### Context Summarizer (`_summarize_response`) -/

/-- Bullet markers recognized by the key-point scan of
`_summarize_response` (`('- ', '* ', '•')`). -/
def keyPointBullets : List Str := [strLit "- ", strLit "* ", strLit "•"]

/-- Numbered-list markers `f"{i}."` for `i` in `range(1, 20)`. -/
def numberedMarkers : List Str :=
  (List.range' 1 19).map (fun i => Nat.toDigits 10 i ++ ['.'])

/-- Salience keywords of `_summarize_response`. -/
def salienceKeywords : List Str :=
  [strLit "key", strLit "important", strLit "primary", strLit "main", strLit "critical"]

/-- Key-point test of `_summarize_response` on an already-stripped line. -/
def isKeyPointLine (line : Str) : Bool :=
  startsWithAny keyPointBullets line ||
  startsWithAny numberedMarkers line ||
  salienceKeywords.any (fun kw => containsSubstr (lower line) kw)

/-- Key-point collection loop of `_summarize_response`: append each
matching stripped line truncated to 100 chars, stopping once the joined
text passes `max_length - 50`. -/
def collectKeyPoints (max_length : Nat) : List Str → List Str → List Str
  | [], acc => acc
  | l :: rest, acc =>
    let line := strip l
    if isKeyPointLine line then
      let acc' := acc ++ [line.take 100]
      if ((joinSep [' '] acc').length : Int) > (max_length : Int) - 50 then acc'
      else collectKeyPoints max_length rest acc'
    else collectKeyPoints max_length rest acc

/-- Embedding of `_summarize_response`: identity under the length cap, then
key-point extraction, then the first-third/last-third fallback, then the
final `summary[:max_length] + "..."` clamp. -/
def summarize_response (response : Str) (max_length : Nat := 300) : Str :=
  if response.length ≤ max_length then response
  else
    let key_points := collectKeyPoints max_length (linesOf response) []
    let summary :=
      if key_points ≠ [] then joinSep [' '] key_points
      else
        let ws := words response
        let first_part := joinSep [' '] (ws.take (max_length / 3))
        let last_part := joinSep [' '] (negDivSlice max_length 3 ws)
        first_part ++ strLit "... [key findings]... " ++ last_part
    if summary.length > max_length then summary.take max_length ++ strLit "..." else summary

/-! ### Prompt Truncators (`_truncate_context_intelligently`,
`_emergency_truncate_prompt`) -/

/-- Essential-section test of `_truncate_context_intelligently`. -/
def sectionIsEssential (sec : Str) : Bool :=
  startsWith (strLit "Product Idea:") sec ||
  containsSubstr sec (strLit "Please provide") ||
  containsSubstr sec (strLit "CIRCLES framework")

/-- Greedy optional-section filling of `_truncate_context_intelligently`:
whole sections while they fit, then a partial slice of the first section
that does not (note the Python slice `[:remaining_tokens-10]`, whose bound
may be negative), then stop. -/
def addOptionalSections : Int → List Str → List Str
  | _, [] => []
  | remaining, sec :: rest =>
    let slen : Int := wc sec
    if slen < remaining then sec :: addOptionalSections (remaining - slen) rest
    else
      let truncated := pySliceTo (words sec) (remaining - 10)
      if truncated ≠ [] then [joinSep [' '] truncated ++ strLit "... [truncated]"]
      else []

/-- Embedding of `_truncate_context_intelligently` (the soft truncator):
identity when the word count fits, otherwise blank-line sections are split
into essential and optional, all essential sections are kept verbatim, and
optional sections are added greedily. -/
def truncate_context_intelligently (prompt : Str) (max_tokens : Nat := 4000) : Str :=
  if wc prompt ≤ max_tokens then prompt
  else
    let secs := ((splitBlank prompt).map strip).filter (· ≠ [])
    let essential_sections := secs.filter sectionIsEssential
    let optional_sections := secs.filter (fun s => !sectionIsEssential s)
    let remaining : Int := (max_tokens : Int) - ((essential_sections.map wc).sum : Int)
    joinSep (strLit "\n\n") (essential_sections ++ addOptionalSections remaining optional_sections)

/-- Embedding of `_emergency_truncate_prompt` (the hard truncator): identity
when the word count fits; otherwise keep the first 5 and last 3 lines,
hard-clip to the budget plus a fixed instruction when even those overflow,
and otherwise fill the middle as far as the budget allows. -/
def emergency_truncate_prompt (prompt : Str) (max_tokens : Nat := 2000) : Str :=
  if (words prompt).length ≤ max_tokens then prompt
  else
    let lns := linesOf prompt
    let essential_lines := lns.take 5 ++ takeLast 3 lns
    let essential_text := joinSep ['\n'] essential_lines
    let essential_words := words essential_text
    if essential_words.length > max_tokens then
      joinSep [' '] (essential_words.take max_tokens) ++
        strLit "\n\nPlease provide a focused analysis based on the above context."
    else
      let remaining := max_tokens - essential_words.length
      if remaining > 100 && lns.length > 8 then
        let middle_lines := (dropLastN 3 lns).drop 5
        let middle_text := joinSep ['\n'] middle_lines
        let middle_words := words middle_text
        let middle_text2 :=
          if middle_words.length > remaining then
            joinSep [' '] (middle_words.take (remaining - 10)) ++ strLit "... [truncated]"
          else middle_text
        joinSep ['\n'] (lns.take 5) ++ strLit "\n\n" ++ middle_text2 ++ strLit "\n\n" ++
          joinSep ['\n'] (takeLast 3 lns)
      else essential_text

/-! ### Stage Orchestrator (`_execute_circles_framework`) -/

/-- The fixed ordered list of the 7 CIRCLES stage ids. -/
def circles_steps : List Str :=
  [strLit "circles_comprehend_the_situation",
   strLit "circles_identify_the_customer",
   strLit "circles_report_the_customers_needs",
   strLit "circles_cut_through_prioritization",
   strLit "circles_list_solutions",
   strLit "circles_evaluate_trade_offs",
   strLit "circles_summarize_recommendations"]

/-- Outcome of one stage's try-block: either the text returned by
`_call_groq_api`, or `str(e)` for an exception raised anywhere inside the
per-stage try (prompt loading, context building, truncation, or the API
call). -/
inductive StepOutcome where
  | success (text : Str)
  | failure (errMsg : Str)
deriving DecidableEq

/-- Response accumulation of `_execute_circles_framework`: each stage id is
mapped, in loop order, to the completion text on success or to the
failure-marker string `"Analysis step failed: " + str(e)` on any exception;
the loop continues with the remaining stages either way. -/
def execute_circles_framework (outcome : Str → StepOutcome) : List (Str × Str) :=
  circles_steps.map (fun step =>
    (step, match outcome step with
           | .success t => t
           | .failure e => strLit "Analysis step failed: " ++ e))

/-! ### Completion Invoker (`_call_groq_api`) -/

/-- `config.GROQ_MAX_TOKENS`. -/
def groq_max_tokens : Nat := 8192

/-- Python `int(len(prompt.split()) * 1.3)` — floor of the token estimate. -/
def estFloor (s : Str) : Nat := 13 * wc s / 10

/-- The invoker's size pre-check `estimated_tokens > limit`, stated on
integers: `wc × 1.3 > limit ↔ 13 × wc > 10 × limit` (exact arithmetic; see
`estimated_tokens_gt_iff`). -/
def estExceeds (s : Str) (limit : Nat) : Bool := decide (13 * wc s > 10 * limit)

/-- Size-limit error classifier of `_call_groq_api`
(`"413" in e or "too large" in e.lower() or "rate_limit_exceeded" in e`). -/
def isTokenLimitErr (e : Str) : Bool :=
  containsSubstr e (strLit "413") ||
  containsSubstr (lower e) (strLit "too large") ||
  containsSubstr e (strLit "rate_limit_exceeded")

/-- Rate-limit error classifier (`"rate_limit" in e.lower()`). -/
def isRateLimitErr (e : Str) : Bool :=
  containsSubstr (lower e) (strLit "rate_limit")

/-- Result of one request to the completion service. -/
inductive ApiResult where
  | ok (text : Str)
  | err (msg : Str)

/-- The prompt actually sent on one loop iteration: unchanged unless the
pre-flight size check fires, in which case the hard truncator is applied
with budget 4000. -/
def preflightPrompt (prompt : Str) : Str :=
  if estExceeds prompt 5500 then emergency_truncate_prompt prompt 4000 else prompt

/-- The `max_tokens` passed for the response on one loop iteration:
`min(config_max, max(500, 6000 - int(est)))`, replaced by
`min(1500, 6000 - int(est'))` when the pre-flight truncation fires. -/
def preflightTokens (prompt : Str) : Int :=
  if estExceeds prompt 5500 then
    min 1500 (6000 - (estFloor (emergency_truncate_prompt prompt 4000) : Int))
  else
    min ((groq_max_tokens : Nat) : Int) (max 500 (6000 - (estFloor prompt : Int)))

/-- Observable events of one `_call_groq_api` invocation: requests sent
(attempt number, prompt, response budget) and backoff sleeps
(`await asyncio.sleep(wait_time)`). -/
inductive CallEvent where
  | sent (attempt : Nat) (prompt : Str) (response_tokens : Int)
  | slept (duration : Nat)
deriving DecidableEq

/-- Durations of the sleeps in a trace, in order. -/
def sleepDurations : List CallEvent → List Nat
  | [] => []
  | .slept d :: rest => d :: sleepDurations rest
  | .sent _ _ _ :: rest => sleepDurations rest

/-- Prompts of the requests in a trace, in order. -/
def sentPrompts : List CallEvent → List Str
  | [] => []
  | .sent _ p _ :: rest => p :: sentPrompts rest
  | .slept _ :: rest => sentPrompts rest

/-- One run of the retry loop of `_call_groq_api`, fuelled by the number of
remaining loop iterations (`max_retries + 1` at entry; the fuel-0 case
models Python falling off the `for` loop, which no reachable path does).
`Except.error` models `raise e`; the trace records requests and sleeps. -/
def call_groq_rec (api : Nat → Str → Int → ApiResult) (max_retries : Nat) :
    Nat → Nat → Str → Except Str Str × List CallEvent
  | 0, _, _ => (.error [], [])
  | fuel + 1, attempt, prompt =>
    let p2 := preflightPrompt prompt
    let rt := preflightTokens prompt
    match api attempt p2 rt with
    | .ok content => (.ok (strip content), [.sent attempt p2 rt])
    | .err e =>
      if isTokenLimitErr e then
        if attempt < max_retries then
          let next := call_groq_rec api max_retries fuel (attempt + 1)
            (emergency_truncate_prompt p2 2000)
          (next.1, .sent attempt p2 rt :: next.2)
        else
          (.ok (strLit "Analysis incomplete due to context size limitations. Key points: " ++
            p2.take 200 ++ strLit "..."), [.sent attempt p2 rt])
      else if isRateLimitErr e && decide (attempt < max_retries) then
        let next := call_groq_rec api max_retries fuel (attempt + 1) p2
        (next.1, .sent attempt p2 rt :: .slept ((attempt + 1) * 2) :: next.2)
      else if attempt = max_retries then (.error e, [.sent attempt p2 rt])
      else
        let next := call_groq_rec api max_retries fuel (attempt + 1) p2
        (next.1, .sent attempt p2 rt :: next.2)

/-- Embedding of `_call_groq_api` with its default `max_retries = 2`. -/
def call_groq_api (api : Nat → Str → Int → ApiResult) (prompt : Str)
    (max_retries : Nat := 2) : Except Str Str × List CallEvent :=
  call_groq_rec api max_retries (max_retries + 1) 0 prompt

/-- Python truthiness of `Except.error` (models "the call raised"). -/
def isErrorResult : Except Str Str → Bool
  | .error _ => true
  | .ok _ => false

/-! ### Insight Extractor (`_extract_section_robust`, `_create_summary`,
`_extract_circles_insights`) -/

/-- Header-line test of `_extract_section_robust`: the keyword occurs in the
lowered line and the line looks like a header. -/
def isSectionHeaderHit (kl : Str) (line : Str) : Bool :=
  containsSubstr (lower line) kl &&
  (startsWithAny [strLit "**", strLit "#", strLit "-", strLit "*", strLit "•"] (strip line) ||
   endsWithChar ':' (strip line) ||
   [strLit "**", strLit "##", strLit "###"].any (fun mk => containsSubstr line mk))

/-- Next-section test of `_extract_section_robust` (the `break` condition). -/
def isSectionBreak (line : Str) : Bool :=
  strip line ≠ [] &&
  (startsWithAny [strLit "**", strLit "#", strLit "##"] line ||
   (endsWithChar ':' (strip line) && decide ((strip line).length < 50)))

/-- Line scan of `_extract_section_robust` for one keyword: skip until a
header hit, then collect stripped non-empty lines until the next section. -/
def scanSectionLines (kl : Str) : List Str → Bool → List Str → List Str
  | [], _, acc => acc
  | line :: rest, found, acc =>
    if isSectionHeaderHit kl line then scanSectionLines kl rest true acc
    else if found then
      if isSectionBreak line then acc
      else if strip line ≠ [] then scanSectionLines kl rest found (acc ++ [strip line])
      else scanSectionLines kl rest found acc
    else scanSectionLines kl rest found acc

/-- Phase (a) of `_extract_section_robust`: first keyword whose header scan
collects content longer than 20 chars wins (trimmed to 300 + ellipsis). -/
def tryHeaderKeywords (lines : List Str) : List Str → Option Str
  | [] => none
  | kw :: rest =>
    let section_content := scanSectionLines (lower kw) lines false []
    if section_content ≠ [] then
      let result := joinSep [' '] section_content
      if result.length > 20 then
        some (if result.length > 300 then result.take 300 ++ strLit "..." else result)
      else tryHeaderKeywords lines rest
    else tryHeaderKeywords lines rest

/-- Sentence collection of phase (b): sentences containing the keyword and
longer than 10 chars (stripped), stopping past 200 chars joined. -/
def collectKeywordSentences (kl : Str) : List Str → List Str → List Str
  | [], acc => acc
  | s :: rest, acc =>
    if containsSubstr (lower s) kl && decide ((strip s).length > 10) then
      let acc2 := acc ++ [strip s]
      if (joinSep [' '] acc2).length > 200 then acc2
      else collectKeywordSentences kl rest acc2
    else collectKeywordSentences kl rest acc

/-- Phase (b) of `_extract_section_robust`: first keyword with any relevant
sentence wins. -/
def trySentenceKeywords (sentences : List Str) : List Str → Option Str
  | [] => none
  | kw :: rest =>
    let relevant := collectKeywordSentences (lower kw) sentences []
    if relevant ≠ [] then some (joinSep [' '] relevant)
    else trySentenceKeywords sentences rest

/-- Embedding of `_extract_section_robust`: the four-stage fallback chain
(header scan, sentence scan, first-50-words, placeholder). -/
def extract_section_robust (text : Str) (keywords : List Str) : Str :=
  if text = [] then strLit "Analysis needed for " ++ joinSep (strLit ", ") keywords
  else
    match tryHeaderKeywords (linesOf text) keywords with
    | some r => r
    | none =>
      match trySentenceKeywords (splitOnChar '.' text) keywords with
      | some r => r
      | none =>
        let ws := words text
        if ws.length > 10 then
          if ws.length > 50 then joinSep [' '] (ws.take 50) ++ strLit "..."
          else joinSep [' '] ws
        else
          strLit "Analysis available but specific " ++ joinSep (strLit ", ") keywords ++
            strLit " details need refinement"

/-- Marker prefixes of the `_create_summary` key-point scan. -/
def summaryPointMarkers : List Str :=
  [strLit "-", strLit "*", strLit "•", strLit "1.", strLit "2.", strLit "3.",
   strLit "4.", strLit "5."]

/-- Key-point test of `_create_summary` on a stripped line. -/
def isSummaryKeyLine (line : Str) : Bool :=
  startsWithAny summaryPointMarkers line ||
  containsSubstr (lower line) (strLit "key") ||
  containsSubstr (lower line) (strLit "important")

/-- Key-point collection loop of `_create_summary`. -/
def collectSummaryPoints (max_length : Nat) : List Str → List Str → List Str
  | [], acc => acc
  | l :: rest, acc =>
    let line := strip l
    if isSummaryKeyLine line then
      let acc2 := acc ++ [line]
      if ((joinSep [' '] acc2).length : Int) > (max_length : Int) - 50 then acc2
      else collectSummaryPoints max_length rest acc2
    else collectSummaryPoints max_length rest acc

/-- Embedding of `_create_summary`. -/
def create_summary (text : Str) (max_length : Nat := 400) : Str :=
  if text = [] then strLit "Analysis pending"
  else if text.length ≤ max_length then text
  else
    let key_points := collectSummaryPoints max_length (linesOf text) []
    if key_points ≠ [] then joinSep [' '] key_points
    else
      let ws := words text
      if ws.length > max_length / 4 then
        joinSep [' '] (ws.take (max_length / 3)) ++ strLit "... [analysis continues]... " ++
          joinSep [' '] (negDivSlice max_length 4 ws)
      else if text.length > max_length then text.take max_length ++ strLit "..." else text

/-- Embedding of `_extract_circles_insights`: the fixed mapping of the 20
insight keys to keyword extractions over the 7 stage responses (absent
stages default to the empty string, Python `dict.get(step, '')`). -/
def extract_circles_insights (responses : List (Str × Str)) : List (Str × Str) :=
  let comprehend_response := getD responses (strLit "circles_comprehend_the_situation") []
  let identify_response := getD responses (strLit "circles_identify_the_customer") []
  let report_response := getD responses (strLit "circles_report_the_customers_needs") []
  let prioritization_response := getD responses (strLit "circles_cut_through_prioritization") []
  let solutions_response := getD responses (strLit "circles_list_solutions") []
  let tradeoffs_response := getD responses (strLit "circles_evaluate_trade_offs") []
  let summary_response := getD responses (strLit "circles_summarize_recommendations") []
  [ (strLit "situation_analysis", extract_section_robust comprehend_response
      [strLit "current state", strLit "situation", strLit "problem", strLit "challenge"]),
    (strLit "market_context", extract_section_robust comprehend_response
      [strLit "market", strLit "competitive", strLit "industry", strLit "external"]),
    (strLit "business_context", extract_section_robust comprehend_response
      [strLit "business", strLit "strategic", strLit "goals", strLit "objectives"]),
    (strLit "technical_context", extract_section_robust comprehend_response
      [strLit "technical", strLit "technology", strLit "system", strLit "platform"]),
    (strLit "customer_identification", extract_section_robust identify_response
      [strLit "primary customer", strLit "main user", strLit "target user", strLit "customer"]),
    (strLit "customer_segments", extract_section_robust identify_response
      [strLit "segment", strLit "persona", strLit "user type", strLit "customer type"]),
    (strLit "customer_context", extract_section_robust identify_response
      [strLit "context", strLit "workflow", strLit "process", strLit "environment"]),
    (strLit "functional_needs", extract_section_robust report_response
      [strLit "functional", strLit "feature", strLit "capability", strLit "requirement"]),
    (strLit "non_functional_needs", extract_section_robust report_response
      [strLit "non-functional", strLit "performance", strLit "security", strLit "scalability"]),
    (strLit "business_goals", extract_section_robust report_response
      [strLit "business need", strLit "business goal", strLit "outcome", strLit "value"]),
    (strLit "customer_needs_summary", create_summary report_response 400),
    (strLit "mvp_definition", extract_section_robust prioritization_response
      [strLit "mvp", strLit "minimum viable", strLit "core", strLit "essential"]),
    (strLit "priority_features", extract_section_robust prioritization_response
      [strLit "must have", strLit "high priority", strLit "critical", strLit "essential"]),
    (strLit "optional_features", extract_section_robust prioritization_response
      [strLit "nice to have", strLit "optional", strLit "future", strLit "enhancement"]),
    (strLit "solution_options", create_summary solutions_response 400),
    (strLit "risk_mitigation", extract_section_robust tradeoffs_response
      [strLit "risk", strLit "mitigation", strLit "challenge", strLit "concern"]),
    (strLit "performance_targets", extract_section_robust tradeoffs_response
      [strLit "performance", strLit "speed", strLit "target", strLit "metric"]),
    (strLit "recommendations_summary", create_summary summary_response 400),
    (strLit "success_metrics", extract_section_robust summary_response
      [strLit "success", strLit "metric", strLit "measurement", strLit "kpi"]),
    (strLit "implementation_phases", extract_section_robust summary_response
      [strLit "implementation", strLit "phase", strLit "timeline", strLit "roadmap"]) ]

/-! ### Table synthesis (`_generate_requirements_table`,
`_generate_personas_table`, `_generate_stakeholder_table`,
`_generate_prioritization_table`) -/

/-- Bullet markers of the requirements-feature line test. -/
def reqLineMarkers1 : List Str := [strLit "-", strLit "*", strLit "•"]

/-- Glyph markers of the requirements-feature line test. -/
def reqLineMarkers2 : List Str := [strLit "○", strLit "▪", strLit "▫"]

/-- Feature-line test of `_generate_requirements_table`. -/
def isReqFeatureLine (line : Str) : Bool :=
  startsWithAny reqLineMarkers1 line ||
  startsWithAny numberedMarkers line ||
  startsWithAny reqLineMarkers2 line ||
  (containsSubstr (lower line) (strLit "feature") ||
   containsSubstr (lower line) (strLit "capability") ||
   containsSubstr (lower line) (strLit "function"))

/-- The `lstrip` character set `'-*•○▪▫0123456789. '` of the requirements
extraction. -/
def reqStripChars : List Char :=
  ['-', '*', '•', '○', '▪', '▫', '0', '1', '2', '3', '4', '5', '6', '7', '8', '9', '.', ' ']

/-- Feature extraction of `_generate_requirements_table`: list-like lines,
cleaned of markup, kept when 15 < length < 100. -/
def extractReqFeatures (all_text : Str) : List Str :=
  if strip all_text ≠ [] then
    (linesOf all_text).foldl (fun acc l =>
      let line := strip l
      if line = [] then acc
      else if isReqFeatureLine line then
        let feature := strip (lstripSet reqStripChars line)
        if feature ≠ [] && decide (feature.length > 15) && decide (feature.length < 100) then
          acc ++ [feature]
        else acc
      else acc) []
  else []

/-- Action vocabulary of `_generate_default_features`. -/
def actionWords : List Str :=
  [strLit "create", strLit "manage", strLit "view", strLit "edit", strLit "delete",
   strLit "search", strLit "filter", strLit "sort", strLit "export", strLit "import",
   strLit "configure", strLit "monitor", strLit "track", strLit "analyze", strLit "report"]

/-- Embedding of `_generate_default_features`: action-word and
domain-keyword features from the lowered word list, generic fallbacks when
none match, capped at 8. -/
def generate_default_features (text : Str) : List Str :=
  let features :=
    if text ≠ [] then
      let ws := words (lower text)
      (actionWords.filter (fun a => a ∈ ws)).map
          (fun a => titleWord a ++ strLit " functionality") ++
        (if strLit "user" ∈ ws then [strLit "User management and authentication"] else []) ++
        (if strLit "data" ∈ ws then [strLit "Data processing and storage"] else []) ++
        (if strLit "interface" ∈ ws || strLit "ui" ∈ ws then
          [strLit "User interface and experience"] else []) ++
        (if strLit "integration" ∈ ws then [strLit "System integration capabilities"] else []) ++
        (if strLit "security" ∈ ws then [strLit "Security and access control"] else []) ++
        (if strLit "report" ∈ ws || strLit "analytics" ∈ ws then
          [strLit "Reporting and analytics"] else [])
    else []
  (if features = [] then
    [strLit "Core business functionality", strLit "User authentication and access",
     strLit "Data management and storage", strLit "User interface and navigation",
     strLit "System configuration and settings"]
   else features).take 8

/-- One formatted row of the requirements table. -/
def reqRow (i : Nat) (feature : Str) : Str :=
  let priority := if i < 3 then strLit "Must Have"
    else if i < 6 then strLit "Should Have" else strLit "Could Have"
  let mvp := if i < 3 then strLit "Yes" else strLit "No"
  let user_story := if !startsWith (strLit "as a") (lower feature) then
    strLit "As a user, I want to " ++ lower feature else feature
  let acceptance := strLit "Given the system is operational, when I " ++
    lower (feature.take 30) ++ strLit "..., then the feature works as expected"
  let owner := if containsSubstr (lower feature) (strLit "business") then
    strLit "Product" else strLit "Engineering"
  let tester := if priority = strLit "Must Have" then strLit "QA" else strLit "UAT"
  let effort := if i < 2 then strLit "Large" else if i < 5 then strLit "Medium"
    else strLit "Small"
  strLit "| REQ-" ++ pad3 (i + 1) ++ strLit " | Core | " ++ mvp ++ strLit " | " ++ priority ++
    strLit " | " ++ feature ++ strLit " | " ++ user_story ++ strLit " | " ++ acceptance ++
    strLit " | " ++ owner ++ strLit " | " ++ tester ++ strLit " | " ++ effort ++ strLit " |"

/-- The fixed fallback row of the requirements table. -/
def default_req_row : Str :=
  strLit "| REQ-001 | Core | Yes | Must Have | Core product functionality | As a user, I want essential features | Given core functionality, when I use the system, then it meets my basic needs | Engineering | QA | Medium |"

/-- Rows of `_generate_requirements_table` (the function returns them
joined with newlines). -/
def generate_requirements_table_rows (insights : List (Str × Str)) : List Str :=
  let functional_needs := getD insights (strLit "functional_needs") []
  let priority_features := getD insights (strLit "priority_features") []
  let customer_needs := getD insights (strLit "customer_needs_summary") []
  let all_text := functional_needs ++ [' '] ++ priority_features ++ [' '] ++ customer_needs
  let features0 := extractReqFeatures all_text
  let features := if features0 = [] then generate_default_features all_text else features0
  let table_rows := (features.take 8).enum.map (fun ie => reqRow ie.1 ie.2)
  if table_rows = [] then [default_req_row] else table_rows

/-- Embedding of `_generate_requirements_table`. -/
def generate_requirements_table (insights : List (Str × Str)) : Str :=
  joinSep ['\n'] (generate_requirements_table_rows insights)

/-- Persona record of the personas-table synthesis (the Python code builds
dicts that always carry these six keys). -/
structure Persona where
  name : Str
  demographics : Str
  goals : Str
  pain_points : Str
  use_cases : Str
  metrics : Str
deriving DecidableEq

/-- Persona-indicator keywords of `_extract_personas_from_text_enhanced`. -/
def personaKeywordsList : List Str :=
  [strLit "persona", strLit "user type", strLit "customer segment", strLit "target user",
   strLit "primary user", strLit "secondary user"]

/-- Role keywords of `_extract_personas_from_text_enhanced`. -/
def roleKeywordsList : List Str :=
  [strLit "manager", strLit "administrator", strLit "analyst", strLit "developer",
   strLit "executive", strLit "employee", strLit "customer", strLit "client"]

/-- Fresh persona started at an indicator line
(`line[:40] if len(line) < 40 else line.split()[0] + " User"`, colons
removed, stripped; all other attributes defaulted). -/
def newPersona (line : Str) : Persona :=
  let persona_name := if line.length < 40 then line.take 40
    else (words line).headD [] ++ strLit " User"
  { name := strip (removeChar ':' persona_name)
    demographics := strLit "Professional user"
    goals := strLit "Achieve efficiency and productivity"
    pain_points := strLit "Current process limitations"
    use_cases := strLit "Daily operational workflows"
    metrics := strLit "Time saved and accuracy improved" }

/-- Attribute update of the current persona from a non-indicator line. -/
def updatePersona (p : Persona) (line : Str) : Persona :=
  let ll := lower line
  if [strLit "age", strLit "demographic", strLit "background", strLit "experience"].any
      (fun kw => containsSubstr ll kw) then { p with demographics := line.take 50 }
  else if [strLit "goal", strLit "objective", strLit "want", strLit "need"].any
      (fun kw => containsSubstr ll kw) then { p with goals := line.take 60 }
  else if [strLit "pain", strLit "problem", strLit "challenge", strLit "frustration"].any
      (fun kw => containsSubstr ll kw) then { p with pain_points := line.take 60 }
  else if [strLit "use case", strLit "scenario", strLit "workflow", strLit "task"].any
      (fun kw => containsSubstr ll kw) then { p with use_cases := line.take 60 }
  else if [strLit "success", strLit "metric", strLit "measure", strLit "kpi"].any
      (fun kw => containsSubstr ll kw) then { p with metrics := line.take 50 }
  else p

/-- Line loop of `_extract_personas_from_text_enhanced`, carrying the
accumulated personas and the persona under construction. -/
def extract_personas_enhanced_loop : List Str → List Persona → Option Persona → List Persona
  | [], personas, current =>
    match current with
    | some p => personas ++ [p]
    | none => personas
  | l :: rest, personas, current =>
    let line := strip l
    if line = [] then extract_personas_enhanced_loop rest personas current
    else
      let ll := lower line
      if personaKeywordsList.any (fun kw => containsSubstr ll kw) ||
          roleKeywordsList.any (fun kw => containsSubstr ll kw) then
        extract_personas_enhanced_loop rest
          (match current with
           | some p => personas ++ [p]
           | none => personas)
          (some (newPersona line))
      else
        match current with
        | some p => extract_personas_enhanced_loop rest personas (some (updatePersona p line))
        | none => extract_personas_enhanced_loop rest personas none

/-- Embedding of `_extract_personas_from_text_enhanced`. -/
def extract_personas_from_text_enhanced (text : Str) : List Persona :=
  extract_personas_enhanced_loop (linesOf text) [] none

/-- Default personas of `_generate_default_personas` (business context). -/
def businessPersona : Persona :=
  { name := strLit "Business User"
    demographics := strLit "Professional, 25-45 years, business domain expertise"
    goals := strLit "Streamline operations and improve efficiency"
    pain_points := strLit "Manual processes and data silos"
    use_cases := strLit "Daily business operations and reporting"
    metrics := strLit "Time savings and process efficiency" }

/-- Default admin persona. -/
def adminPersona : Persona :=
  { name := strLit "Administrative User"
    demographics := strLit "Professional, 30-50 years, admin experience"
    goals := strLit "Manage system configuration and user access"
    pain_points := strLit "Complex administrative tasks"
    use_cases := strLit "System administration and user management"
    metrics := strLit "System uptime and user satisfaction" }

/-- Default end-customer persona. -/
def endCustomerPersona : Persona :=
  { name := strLit "End Customer"
    demographics := strLit "Varied demographics, digital natives"
    goals := strLit "Quick and easy service access"
    pain_points := strLit "Complicated interfaces and slow responses"
    use_cases := strLit "Self-service and information access"
    metrics := strLit "Task completion rate and satisfaction" }

/-- Default technical persona. -/
def technicalPersona : Persona :=
  { name := strLit "Technical User"
    demographics := strLit "Technical professional, 25-40 years"
    goals := strLit "Integrate and maintain technical systems"
    pain_points := strLit "Limited documentation and complex APIs"
    use_cases := strLit "System integration and maintenance"
    metrics := strLit "Integration success and system reliability" }

/-- Final fallback personas. -/
def primaryPersona : Persona :=
  { name := strLit "Primary User"
    demographics := strLit "Professional user, varied background"
    goals := strLit "Accomplish tasks efficiently and effectively"
    pain_points := strLit "Current process inefficiencies"
    use_cases := strLit "Core product functionality usage"
    metrics := strLit "Task completion and user satisfaction" }

/-- Final fallback secondary persona. -/
def secondaryPersona : Persona :=
  { name := strLit "Secondary User"
    demographics := strLit "Occasional user, basic technical skills"
    goals := strLit "Access information and perform basic tasks"
    pain_points := strLit "Complexity and learning curve"
    use_cases := strLit "Periodic information access and basic operations"
    metrics := strLit "Ease of use and success rate" }

/-- Embedding of `_generate_default_personas` (note the `'IT'` keyword is
matched case-sensitively against the lowered text, as in the source). -/
def generate_default_personas (text : Str) : List Persona :=
  let text_lower := lower text
  let personas :=
    (if [strLit "enterprise", strLit "business", strLit "corporate", strLit "organization"].any
        (fun w => containsSubstr text_lower w) then [businessPersona, adminPersona] else []) ++
    (if [strLit "customer", strLit "client", strLit "external", strLit "public"].any
        (fun w => containsSubstr text_lower w) then [endCustomerPersona] else []) ++
    (if [strLit "technical", strLit "developer", strLit "IT", strLit "system"].any
        (fun w => containsSubstr text_lower w) then [technicalPersona] else [])
  if personas = [] then [primaryPersona, secondaryPersona] else personas

/-- One formatted row of the personas table (fields truncated as in the
source). -/
def personaRow (p : Persona) : Str :=
  strLit "| " ++ p.name.take 30 ++ strLit " | " ++ p.demographics.take 50 ++ strLit " | " ++
    p.goals.take 60 ++ strLit " | " ++ p.pain_points.take 60 ++ strLit " | " ++
    p.use_cases.take 60 ++ strLit " | " ++ p.metrics.take 50 ++ strLit " |"

/-- Rows of `_generate_personas_table`. -/
def generate_personas_table_rows (insights : List (Str × Str)) : List Str :=
  let customer_info := getD insights (strLit "customer_identification") []
  let customer_segments := getD insights (strLit "customer_segments") []
  let customer_context := getD insights (strLit "customer_context") []
  let all_customer_text := customer_info ++ [' '] ++ customer_segments ++ [' '] ++ customer_context
  let personas0 := if strip all_customer_text ≠ [] then
    extract_personas_from_text_enhanced all_customer_text else []
  let personas := if personas0 = [] then generate_default_personas all_customer_text
    else personas0
  (personas.take 4).map personaRow

/-- Embedding of `_generate_personas_table`. -/
def generate_personas_table (insights : List (Str × Str)) : Str :=
  joinSep ['\n'] (generate_personas_table_rows insights)

/-- Rows of `_generate_stakeholder_table`: the source formats a fixed
4-element stakeholder list, independent of the insights argument. -/
def generate_stakeholder_table_rows (_insights : List (Str × Str)) : List Str :=
  [strLit "| Product Owner | Business Lead | High | High | Daily | Business outcomes |",
   strLit "| End Users | Primary Users | Medium | High | As needed | Usability & value |",
   strLit "| Development Team | Implementation | High | Medium | Daily | Technical feasibility |",
   strLit "| Executive Sponsor | Decision Maker | High | Medium | Weekly | ROI & timeline |"]

/-- Embedding of `_generate_stakeholder_table`. -/
def generate_stakeholder_table (insights : List (Str × Str)) : Str :=
  joinSep ['\n'] (generate_stakeholder_table_rows insights)

/-- The `lstrip` character set `'-*•0123456789. '` of the prioritization
extraction. -/
def prioStripChars : List Char :=
  ['-', '*', '•', '0', '1', '2', '3', '4', '5', '6', '7', '8', '9', '.', ' ']

/-- Feature extraction of `_generate_prioritization_table` over the two
insight texts. -/
def extractPrioFeatures (texts : List Str) : List Str :=
  texts.foldl (fun acc text =>
    if text ≠ [] then
      (linesOf text).foldl (fun acc2 l =>
        let line := strip l
        if startsWithAny reqLineMarkers1 line || startsWithAny numberedMarkers line then
          let feature := strip (lstripSet prioStripChars line)
          if feature ≠ [] && decide (feature.length > 10) then acc2 ++ [feature.take 50]
          else acc2
        else acc2) acc
    else acc) []

/-- Generic fallback features of `_generate_prioritization_table`. -/
def genericPrioFeatures : List Str :=
  [strLit "Core functionality implementation", strLit "User authentication and access",
   strLit "Data management and storage", strLit "User interface and experience",
   strLit "Integration capabilities"]

/-- One formatted row of the prioritization table. -/
def prioRow (i : Nat) (feature : Str) : Str :=
  let priorities := [strLit "High", strLit "High", strLit "Medium", strLit "Medium", strLit "Low"]
  let phases := [strLit "MVP", strLit "MVP", strLit "Phase 1", strLit "Phase 1", strLit "Phase 2"]
  let business_value := priorities.getD i (strLit "Medium")
  let effort := if business_value = strLit "High" then strLit "Medium" else strLit "Low"
  let risk := if business_value = strLit "High" then strLit "Low" else strLit "Medium"
  let score := if business_value = strLit "High" then strLit "90"
    else if business_value = strLit "Medium" then strLit "70" else strLit "50"
  let phase := phases.getD i (strLit "Future")
  strLit "| " ++ feature ++ strLit " | " ++ business_value ++ strLit " | " ++ effort ++
    strLit " | " ++ risk ++ strLit " | " ++ score ++ strLit " | " ++ phase ++ strLit " | TBD |"

/-- Rows of `_generate_prioritization_table`. -/
def generate_prioritization_table_rows (insights : List (Str × Str)) : List Str :=
  let functional_needs := getD insights (strLit "functional_needs") []
  let priority_features := getD insights (strLit "priority_features") []
  let features0 := extractPrioFeatures [functional_needs, priority_features]
  let features := if features0 = [] then genericPrioFeatures else features0
  (features.take 5).enum.map (fun ie => prioRow ie.1 ie.2)

/-- Embedding of `_generate_prioritization_table`. -/
def generate_prioritization_table (insights : List (Str × Str)) : Str :=
  joinSep ['\n'] (generate_prioritization_table_rows insights)

/-! ### Session store and `generate_prd` -/

/-- The value stored in `session.circles_analysis` after generation: the
coverage report of `_analyze_circles_coverage` plus the `circles_responses`
entry added at the call site. -/
structure SessionAnalysis where
  report : CoverageReport
  circles_responses : List (Str × Str)
deriving DecidableEq

/-- Embedding of the `PRDSession` model (Pydantic defaults:
`responses = {}`, `current_step = 0`, `circles_analysis = {}`, the latter
modelled as `none` until first written). -/
structure PRDSession where
  product_idea : Str
  started_at : Nat
  template_id : Str
  conversation_data : List (Str × Str)
  responses : List (Str × Str)
  current_step : Nat
  circles_analysis : Option SessionAnalysis
deriving DecidableEq

/-- Embedding of the `PRDResult` response model. -/
structure PRDResult where
  prd_document : Str
  circles_analysis : SessionAnalysis
  generation_timestamp : Nat
  session_id : Str

/-- Lookup in the session registry (`self.sessions`, keyed by session id). -/
def lookupSession (store : List (Str × PRDSession)) (sid : Str) : Option PRDSession :=
  (store.find? (fun q => q.1 = sid)).map Prod.snd

/-- In-place mutation of the session stored under `sid`. -/
def updateSession (store : List (Str × PRDSession)) (sid : Str)
    (f : PRDSession → PRDSession) : List (Str × PRDSession) :=
  store.map (fun q => if q.1 = sid then (q.1, f q.2) else q)

/-- Session-store skeleton of `generate_prd` (success path).  The
completion-service interactions are abstracted into `outcome` (each stage's
try-block result, as in `_execute_circles_framework`) and `prd_text` (the
document produced by `_generate_prd_from_circles`); `now` models
`datetime.now()`.  A session is created only when the id is absent; the
existing session then has its `responses` field written before document
generation and its `circles_analysis` field written before returning. -/
def generate_prd (outcome : Str → StepOutcome) (prd_text : Str) (now : Nat)
    (product_idea template_id : Str) (conversation_data : List (Str × Str))
    (session_id : Str) (store : List (Str × PRDSession)) :
    List (Str × PRDSession) × PRDResult :=
  let store1 :=
    if (lookupSession store session_id).isSome then store
    else store ++ [(session_id,
      { product_idea := product_idea
        started_at := now
        template_id := template_id
        conversation_data := conversation_data
        responses := []
        current_step := 0
        circles_analysis := none })]
  let circles_responses := execute_circles_framework outcome
  let store2 := updateSession store1 session_id
    (fun s => { s with responses := circles_responses })
  let analysis : SessionAnalysis :=
    { report := analyze_circles_coverage prd_text
      circles_responses := circles_responses }
  let store3 := updateSession store2 session_id
    (fun s => { s with circles_analysis := some analysis })
  (store3,
    { prd_document := prd_text
      circles_analysis := analysis
      generation_timestamp := now
      session_id := session_id })

/-! ### Word-count lemmas for the text model -/

lemma estimated_tokens_gt_iff (s : Str) (limit : Nat) :
    estimated_tokens s > (limit : ℚ) ↔ 13 * wc s > 10 * limit := by
  unfold estimated_tokens
  rw [gt_iff_lt, lt_div_iff₀ (by norm_num : (0:ℚ) < 10)]
  constructor
  · intro h
    have : (10 * limit : ℚ) < 13 * wc s := by nlinarith
    exact_mod_cast this
  · intro h
    have : (10 * limit : ℚ) < 13 * wc s := by exact_mod_cast h
    nlinarith

lemma splitP_ne_nil (s : Str) : splitP s ≠ [] := by
  induction s with
  | nil => simp [splitP]
  | cons c r ih =>
    simp only [splitP]
    split
    · simp
    · cases hr : splitP r with
      | nil => exact absurd hr ih
      | cons h t => simp [List.modifyHead]

lemma splitP_head_spec (s : Str) :
    ∃ h t, splitP s = h :: t ∧ (h = [] ↔ startsNonWS s = false) := by
  cases s with
  | nil => exact ⟨[], [], rfl, by simp [startsNonWS]⟩
  | cons c r =>
    by_cases hc : isWS c
    · exact ⟨[], splitP r, by simp [splitP, hc], by simp [startsNonWS, hc]⟩
    · cases hr : splitP r with
      | nil => exact absurd hr (splitP_ne_nil r)
      | cons h t =>
        exact ⟨c :: h, t, by simp [splitP, hc, hr, List.modifyHead], by simp [startsNonWS, hc]⟩

lemma words_nil : words [] = [] := rfl

lemma words_cons_ws (c : Char) (s : Str) (h : isWS c = true) : words (c :: s) = words s := by
  simp [words, splitP, h]

lemma splitP_append_ws (c : Char) (h : isWS c = true) (a b : Str) :
    splitP (a ++ c :: b) = splitP a ++ splitP b := by
  induction a with
  | nil => simp [splitP, h]
  | cons d a' ih =>
    simp only [List.cons_append, splitP]
    by_cases hd : isWS d
    · simp [hd, ih]
    · rw [if_neg (by simp [hd]), if_neg (by simp [hd])]
      simp only [List.append_eq]
      rw [ih]
      cases ha' : splitP a' with
      | nil => exact absurd ha' (splitP_ne_nil a')
      | cons hh tt => simp [List.modifyHead]

lemma words_append_ws (c : Char) (h : isWS c = true) (a b : Str) :
    words (a ++ c :: b) = words a ++ words b := by
  simp [words, splitP_append_ws c h a b]

lemma mem_splitP_not_ws : ∀ {s p : Str}, p ∈ splitP s → ∀ c ∈ p, isWS c = false := by
  intro s
  induction s with
  | nil =>
    intro p hp
    simp only [splitP, List.mem_singleton] at hp
    subst hp
    simp
  | cons d r ih =>
    intro p hp
    simp only [splitP] at hp
    by_cases hd : isWS d
    · rw [if_pos hd] at hp
      rcases List.mem_cons.mp hp with rfl | hp
      · simp
      · exact ih hp
    · rw [if_neg hd] at hp
      cases hr : splitP r with
      | nil => exact absurd hr (splitP_ne_nil r)
      | cons hh tt =>
        rw [hr] at hp
        simp only [List.modifyHead, List.mem_cons] at hp
        rcases hp with rfl | hp
        · intro c hc
          rcases List.mem_cons.mp hc with rfl | hc
          · simpa using hd
          · exact ih (hr ▸ List.mem_cons_self hh tt) c hc
        · exact ih (hr ▸ List.mem_cons_of_mem hh hp)

lemma words_mem_clean {s w : Str} (hw : w ∈ words s) :
    w ≠ [] ∧ ∀ c ∈ w, isWS c = false := by
  unfold words at hw
  refine ⟨by simpa using List.of_mem_filter hw, mem_splitP_not_ws (List.mem_of_mem_filter hw)⟩

lemma splitP_no_ws {w : Str} (h : ∀ c ∈ w, isWS c = false) : splitP w = [w] := by
  induction w with
  | nil => rfl
  | cons c r ih =>
    simp only [splitP]
    rw [if_neg (by simp [h c (List.mem_cons_self c r)]),
      ih (fun d hd => h d (List.mem_cons_of_mem c hd))]
    simp [List.modifyHead]

lemma words_of_clean {w : Str} (hne : w ≠ []) (h : ∀ c ∈ w, isWS c = false) :
    words w = [w] := by
  unfold words
  rw [splitP_no_ws h]
  simp [hne]

lemma words_joinSp {ws : List Str}
    (h : ∀ w ∈ ws, w ≠ [] ∧ ∀ c ∈ w, isWS c = false) :
    words (joinSep [' '] ws) = ws := by
  induction ws with
  | nil => rfl
  | cons w rest ih =>
    cases rest with
    | nil =>
      have hw := h w (List.mem_cons_self w [])
      simpa [joinSep] using words_of_clean hw.1 hw.2
    | cons w2 r2 =>
      have hshape : joinSep [' '] (w :: w2 :: r2) = w ++ ' ' :: joinSep [' '] (w2 :: r2) := by
        simp [joinSep]
      rw [hshape, words_append_ws ' ' (by decide),
        words_of_clean (h w (List.mem_cons_self w _)).1 (h w (List.mem_cons_self w _)).2,
        ih (fun x hx => h x (List.mem_cons_of_mem w hx))]
      rfl

lemma words_joinSp_sub {s : Str} (l : List Str) (hsub : l ⊆ words s) :
    words (joinSep [' '] l) = l :=
  words_joinSp (fun _ hw => words_mem_clean (hsub hw))

lemma wc_joinNL (L : List Str) : wc (joinSep ['\n'] L) = (L.map wc).sum := by
  induction L with
  | nil => rfl
  | cons x rest ih =>
    cases rest with
    | nil => simp [joinSep, wc]
    | cons y r2 =>
      have hshape : joinSep ['\n'] (x :: y :: r2) = x ++ '\n' :: joinSep ['\n'] (y :: r2) := by
        simp [joinSep]
      rw [wc, hshape, words_append_ws '\n' (by decide), List.length_append]
      have hr : (words (joinSep ['\n'] (y :: r2))).length = wc (joinSep ['\n'] (y :: r2)) := rfl
      rw [hr, ih]
      simp [wc]

lemma startsNonWS_append (X Y : Str) (h : X ≠ []) : startsNonWS (X ++ Y) = startsNonWS X := by
  cases X with
  | nil => exact absurd rfl h
  | cons c r => rfl

lemma wc_cons_nonws (c : Char) (s : Str) (hc : isWS c = false) :
    wc (c :: s) = wc s + (if startsNonWS s then 0 else 1) := by
  obtain ⟨h, t, hst, hiff⟩ := splitP_head_spec s
  unfold wc words
  rw [show splitP (c :: s) = (splitP s).modifyHead (c :: ·) by simp [splitP, hc], hst]
  simp only [List.modifyHead]
  by_cases hsw : startsNonWS s
  · have hne : h ≠ [] := fun he => by simp [hiff.mp he] at hsw
    simp [hsw, hne, List.filter_cons]
  · have he : h = [] := hiff.mpr (by simpa using hsw)
    subst he
    simp [hsw, List.filter_cons]

lemma wc_append_le (X Y : Str) : wc (X ++ Y) ≤ wc X + wc Y := by
  induction X with
  | nil =>
    rw [List.nil_append]
    have h0 : wc ([] : Str) = 0 := rfl
    omega
  | cons c X' ih =>
    by_cases hc : isWS c
    · have h1 : wc (c :: X' ++ Y) = wc (X' ++ Y) := by
        rw [List.cons_append, wc, words_cons_ws c _ hc]; rfl
      have h2 : wc (c :: X') = wc X' := by
        rw [wc, words_cons_ws c _ hc]; rfl
      rw [h1, h2]
      exact le_trans ih (by omega)
    · by_cases hX : X' = []
      · subst hX
        have h1 : (c :: ([] : Str)) ++ Y = c :: Y := rfl
        rw [h1, wc_cons_nonws c Y (by simpa using hc),
          wc_cons_nonws c [] (by simpa using hc)]
        have h0 : wc ([] : Str) = 0 := rfl
        rw [h0]
        simp only [startsNonWS, Bool.false_eq_true, if_false]
        split <;> omega
      · rw [List.cons_append, wc_cons_nonws c _ (by simpa using hc),
          wc_cons_nonws c X' (by simpa using hc), startsNonWS_append X' Y hX]
        split <;> omega

lemma wc_join5_last3 (lns : List Str) :
    wc (joinSep ['\n'] (lns.take 5)) + wc (joinSep ['\n'] (takeLast 3 lns)) =
      wc (joinSep ['\n'] (lns.take 5 ++ takeLast 3 lns)) := by
  rw [wc_joinNL, wc_joinNL, wc_joinNL, List.map_append, List.sum_append]

lemma middle_clip_wc_le (mtext : Str) (r : Nat) (hr : 100 < r) :
    wc (if (words mtext).length > r
        then joinSep [' '] ((words mtext).take (r - 10)) ++ strLit "... [truncated]"
        else mtext) ≤ r := by
  split
  · refine le_trans (wc_append_le _ _) ?_
    have h1 : wc (joinSep [' '] ((words mtext).take (r - 10))) =
        ((words mtext).take (r - 10)).length := by
      rw [wc, words_joinSp_sub _ (List.take_subset _ _)]
    have h2 : wc (strLit "... [truncated]") = 2 := by decide
    rw [h1, h2, List.length_take]
    omega
  · have hm : wc mtext = (words mtext).length := rfl
    omega

/-- Word-count bound of the hard truncator: the output never exceeds the
budget by more than the 10-word closing instruction. -/
lemma emergency_truncate_wc_le (prompt : Str) (B : Nat) :
    wc (emergency_truncate_prompt prompt B) ≤ B + 10 := by
  unfold emergency_truncate_prompt
  dsimp only
  split
  · next h =>
    have hrfl : wc prompt = (words prompt).length := rfl
    omega
  · next h1 =>
    split
    · next h2 =>
      rw [show strLit "\n\nPlease provide a focused analysis based on the above context." =
          '\n' :: '\n' ::
            strLit "Please provide a focused analysis based on the above context." from rfl]
      rw [wc, words_append_ws '\n' (by decide), words_cons_ws '\n' _ (by decide),
        List.length_append]
      rw [words_joinSp_sub _ (List.take_subset _ _)]
      have h10 :
          (words (strLit "Please provide a focused analysis based on the above context.")).length
            = 10 := by decide
      rw [h10, List.length_take]
      omega
    · next h2 =>
      split
      · next h3 =>
        rw [Bool.and_eq_true, decide_eq_true_eq, decide_eq_true_eq] at h3
        obtain ⟨h3a, h3b⟩ := h3
        rw [show strLit "\n\n" = ['\n', '\n'] from rfl]
        simp only [List.append_assoc, List.cons_append, List.nil_append]
        rw [wc, words_append_ws '\n' (by decide), words_cons_ws '\n' _ (by decide),
          words_append_ws '\n' (by decide), words_cons_ws '\n' _ (by decide),
          List.length_append, List.length_append]
        have hXZ := wc_join5_last3 (linesOf prompt)
        have hM := middle_clip_wc_le
          (joinSep ['\n'] ((dropLastN 3 (linesOf prompt)).drop 5))
          (B - (words (joinSep ['\n']
            ((linesOf prompt).take 5 ++ takeLast 3 (linesOf prompt)))).length) h3a
        simp only [wc] at hXZ hM
        omega
      · next h3 =>
        have hrfl : wc (joinSep ['\n']
            ((linesOf prompt).take 5 ++ takeLast 3 (linesOf prompt))) =
          (words (joinSep ['\n']
            ((linesOf prompt).take 5 ++ takeLast 3 (linesOf prompt)))).length := rfl
        omega

/-! ### Bounds for the Coverage Scorer -/


lemma foundKeywords_length_le (kws : List Str) (cl : Str) :
    (foundKeywords kws cl).length ≤ kws.length :=
  List.length_filter_le _ _

lemma baseCoverage_nonneg (kws : List Str) (cl : Str) : 0 ≤ baseCoverage kws cl := by
  unfold baseCoverage
  positivity

lemma baseCoverage_le_100 (kws : List Str) (cl : Str) : baseCoverage kws cl ≤ 100 := by
  unfold baseCoverage
  rcases Nat.eq_zero_or_pos kws.length with h | h
  · rw [h]
    norm_num
  · have hle : ((foundKeywords kws cl).length : ℚ) ≤ (kws.length : ℚ) := by
      exact_mod_cast foundKeywords_length_le kws cl
    have hpos : (0 : ℚ) < (kws.length : ℚ) := by exact_mod_cast h
    have hq : ((foundKeywords kws cl).length : ℚ) / (kws.length : ℚ) ≤ 1 :=
      (div_le_one hpos).mpr hle
    calc ((foundKeywords kws cl).length : ℚ) / (kws.length : ℚ) * 100
        ≤ 1 * 100 := by nlinarith
      _ = 100 := by norm_num

lemma coveragePercentage_nonneg (b : Bool) (kws : List Str) (cl : Str) :
    0 ≤ coveragePercentage b kws cl := by
  unfold coveragePercentage
  cases b with
  | false => simpa using baseCoverage_nonneg kws cl
  | true =>
    simp only [if_pos]
    apply le_min (by norm_num)
    have h0 := baseCoverage_nonneg kws cl
    split <;> nlinarith

lemma coveragePercentage_le_100 (b : Bool) (kws : List Str) (cl : Str) :
    coveragePercentage b kws cl ≤ 100 := by
  unfold coveragePercentage
  cases b with
  | false => simpa using baseCoverage_le_100 kws cl
  | true => simp only [if_pos]; exact min_le_left _ _

lemma coveragePercentage_of_no_found (b : Bool) (kws : List Str) (cl : Str)
    (h : (foundKeywords kws cl).length = 0) : coveragePercentage b kws cl = 0 := by
  unfold coveragePercentage baseCoverage
  rw [h]
  cases b <;> simp

lemma comprehensiveness_boost_nonneg (cl : Str) : 0 ≤ comprehensiveness_boost cl := by
  unfold comprehensiveness_boost
  exact le_min (by norm_num) (by positivity)

lemma mean_dimension_score_nonneg (cl : Str) : 0 ≤ mean_dimension_score cl := by
  unfold mean_dimension_score
  apply div_nonneg _ (by positivity)
  apply List.sum_nonneg
  intro x hx
  simp only [List.mem_map] at hx
  obtain ⟨kws, _, rfl⟩ := hx
  exact coveragePercentage_nonneg _ _ _

lemma mean_dimension_score_le_100 (cl : Str) : mean_dimension_score cl ≤ 100 := by
  unfold mean_dimension_score
  have hlen : dimensionKeywords.length = 7 := by decide
  have hsum : (dimensionKeywords.map
      (fun kws => coveragePercentage (has_circles_execution cl) kws cl)).sum ≤ 700 := by
    have := List.sum_le_card_nsmul
      (dimensionKeywords.map (fun kws => coveragePercentage (has_circles_execution cl) kws cl))
      (100 : ℚ) ?_
    · have hl : (dimensionKeywords.map
          (fun kws => coveragePercentage (has_circles_execution cl) kws cl)).length = 7 := by
        rw [List.length_map, hlen]
      rw [hl] at this
      calc (dimensionKeywords.map
            (fun kws => coveragePercentage (has_circles_execution cl) kws cl)).sum
          ≤ 7 • (100 : ℚ) := this
        _ = 700 := by norm_num
    · intro x hx
      simp only [List.mem_map] at hx
      obtain ⟨kws, _, rfl⟩ := hx
      exact coveragePercentage_le_100 _ _ _
  rw [hlen]
  calc (dimensionKeywords.map
        (fun kws => coveragePercentage (has_circles_execution cl) kws cl)).sum / ((7 : Nat) : ℚ)
      ≤ 700 / 7 := by
        apply div_le_div_of_nonneg_right hsum (by norm_num) |>.trans
        norm_num
    _ = 100 := by norm_num

/-- Case analysis of the aggregate of `analyze_circles_coverage` (helper
shared by several results below). -/
lemma overall_coverage_cases (content : Str) :
    (analyze_circles_coverage content).overall_coverage =
      (let cl := lower content
       if has_circles_execution cl && decide (comprehensive_score cl ≥ 5) then
         min 95 (mean_dimension_score cl + comprehensiveness_boost cl)
       else if has_circles_execution cl then min 85 (mean_dimension_score cl + 15)
       else mean_dimension_score cl) := rfl

/-- C5: for every document text, the coverage analysis's overall aggregate
score is within [0, 100]. -/
theorem C5_overall_coverage_in_range (content : Str) :
    0 ≤ (analyze_circles_coverage content).overall_coverage ∧
      (analyze_circles_coverage content).overall_coverage ≤ 100 := by
  rw [overall_coverage_cases]
  dsimp only
  constructor
  · split
    · exact le_min (by norm_num)
        (add_nonneg (mean_dimension_score_nonneg _) (comprehensiveness_boost_nonneg _))
    · split
      · exact le_min (by norm_num) (add_nonneg (mean_dimension_score_nonneg _) (by norm_num))
      · exact mean_dimension_score_nonneg _
  · split
    · exact le_trans (min_le_left _ _) (by norm_num)
    · split
      · exact le_trans (min_le_left _ _) (by norm_num)
      · exact mean_dimension_score_le_100 _

/-- C7: for every document text and every one of the 7 coverage dimensions,
the dimension's score with the framework-executed flag set (the ×1.5 / ×1.2
boost clamped to 100) is at least the unboosted raw percentage. -/
theorem C7_boost_never_decreases (content : Str) :
    ∀ kws ∈ dimensionKeywords,
      coveragePercentage false kws (lower content) ≤
        coveragePercentage true kws (lower content) := by
  intro kws _
  unfold coveragePercentage
  simp only [Bool.false_eq_true, if_false, if_true]
  apply le_min (baseCoverage_le_100 _ _)
  have h0 := baseCoverage_nonneg kws (lower content)
  split <;> nlinarith

/-- Witness for C7 at a concrete document and the first dimension. -/
theorem C7_boost_never_decreases_witness :
    coveragePercentage false
        [strLit "problem", strLit "context", strLit "background", strLit "situation",
         strLit "challenge", strLit "current state", strLit "market"]
        (lower (strLit "the problem")) ≤
      coveragePercentage true
        [strLit "problem", strLit "context", strLit "background", strLit "situation",
         strLit "challenge", strLit "current state", strLit "market"]
        (lower (strLit "the problem")) :=
  C7_boost_never_decreases (strLit "the problem") _ (by decide)

/-- C6 (amended): the aggregate equals the unboosted mean when the
framework-executed flag is unset; when the flag is set it equals
`min 95 (mean + structure bonus)` only when the comprehensive-structure count
is at least 5, and `min 85 (mean + 15)` otherwise. -/
theorem C6_aggregate_formula (content : Str) :
    (has_circles_execution (lower content) = false →
        (analyze_circles_coverage content).overall_coverage =
          mean_dimension_score (lower content)) ∧
    (has_circles_execution (lower content) = true → 5 ≤ comprehensive_score (lower content) →
        (analyze_circles_coverage content).overall_coverage =
          min 95 (mean_dimension_score (lower content) +
            comprehensiveness_boost (lower content))) ∧
    (has_circles_execution (lower content) = true → comprehensive_score (lower content) < 5 →
        (analyze_circles_coverage content).overall_coverage =
          min 85 (mean_dimension_score (lower content) + 15)) := by
  refine ⟨fun h => ?_, fun h hc => ?_, fun h hc => ?_⟩ <;> rw [overall_coverage_cases]
  · simp [h]
  · simp [h, hc]
  · simp [h, Nat.not_le.mpr hc]

/-- Witness for C6 (amended), framework-executed branch with a low
comprehensive-structure count. -/
theorem C6_aggregate_formula_witness :
    (analyze_circles_coverage (strLit "circles framework")).overall_coverage =
      min 85 (mean_dimension_score (lower (strLit "circles framework")) + 15) :=
  (C6_aggregate_formula (strLit "circles framework")).2.2 (by decide) (by decide)

/-- Counterexample to C6 as stated: on the document "circles framework" the
framework-executed flag is set, the mean and structure bonus are both 0, so
the claimed formula `min 95 (mean + bonus)` yields 0, but the code computes
`min 85 (mean + 15)` = 15. -/
theorem C6_counterexample :
    (analyze_circles_coverage (strLit "circles framework")).overall_coverage = 15 ∧
    min 95 (mean_dimension_score (lower (strLit "circles framework")) +
        comprehensiveness_boost (lower (strLit "circles framework"))) = 0 ∧
    (15 : ℚ) ≠ 0 := by
  have hmean : mean_dimension_score (lower (strLit "circles framework")) = 0 := by
    unfold mean_dimension_score
    rw [List.sum_eq_zero, zero_div]
    intro x hx
    simp only [List.mem_map] at hx
    obtain ⟨kws, hk, rfl⟩ := hx
    apply coveragePercentage_of_no_found
    revert kws hk
    decide
  have hboost : comprehensiveness_boost (lower (strLit "circles framework")) = 0 := by
    have hcomp : comprehensive_score (lower (strLit "circles framework")) = 0 := by decide
    unfold comprehensiveness_boost
    rw [hcomp]
    norm_num
  refine ⟨?_, ?_, by norm_num⟩
  · rw [overall_coverage_cases]
    have hexec : has_circles_execution (lower (strLit "circles framework")) = true := by decide
    have hcomp : comprehensive_score (lower (strLit "circles framework")) = 0 := by decide
    simp only [hexec, hcomp, hmean]
    norm_num
  · rw [hmean, hboost]
    norm_num

/-- C3 (amended): both truncators return the prompt unchanged whenever its
word count is within the budget — so their outputs are bounded in word
count, not in the ×1.3 estimate — and the hard truncator's output word
count never exceeds the budget plus the 10-word closing instruction. -/
theorem C3_truncator_bounds (p : Str) (B : Nat) :
    (wc p ≤ B → truncate_context_intelligently p B = p ∧ emergency_truncate_prompt p B = p) ∧
      wc (emergency_truncate_prompt p B) ≤ B + 10 := by
  constructor
  · intro h
    constructor
    · unfold truncate_context_intelligently
      rw [if_pos h]
    · unfold emergency_truncate_prompt
      rw [if_pos (show (words p).length ≤ B from h)]
  · exact emergency_truncate_wc_le p B

/-- Witness for C3 (amended) at a 10-word prompt and budget 20. -/
theorem C3_truncator_bounds_witness :
    truncate_context_intelligently (strLit "a b c d e f g h i j") 20 =
        strLit "a b c d e f g h i j" ∧
      wc (emergency_truncate_prompt (strLit "a b c d e f g h i j") 20) ≤ 30 :=
  ⟨((C3_truncator_bounds (strLit "a b c d e f g h i j") 20).1 (by decide)).1,
    (C3_truncator_bounds (strLit "a b c d e f g h i j") 20).2⟩

/-- Counterexample to C3 as stated: a 10-word prompt with budget 10 is
returned unchanged by both truncators, yet its estimated size is
10 × 1.3 = 13 > 10. -/
theorem C3_counterexample :
    ¬(estimated_tokens (truncate_context_intelligently (strLit "a b c d e f g h i j") 10) ≤ 10 ∧
      estimated_tokens (emergency_truncate_prompt (strLit "a b c d e f g h i j") 10) ≤ 10) := by
  have hwc : wc (strLit "a b c d e f g h i j") = 10 := by decide
  have hs : truncate_context_intelligently (strLit "a b c d e f g h i j") 10 =
      strLit "a b c d e f g h i j" := by
    unfold truncate_context_intelligently
    rw [if_pos (le_of_eq hwc)]
  have he : estimated_tokens (strLit "a b c d e f g h i j") = 13 := by
    rw [estimated_tokens, hwc]
    norm_num
  rw [hs, he]
  intro hcl
  exact absurd hcl.1 (by norm_num)

/-- Length bound of the final `summary[:max_length] + "..."` clamp. -/
lemma clamp_length_le (summary : Str) (m : Nat) :
    (if summary.length > m then summary.take m ++ strLit "..." else summary).length ≤ m + 3 := by
  split
  · rw [List.length_append, List.length_take]
    have h3 : (strLit "...").length = 3 := rfl
    omega
  · omega

/-- C4 (amended): the Context Summarizer's output length is at most the
requested maximum plus the 3-character ellipsis appended by the final
clamp. -/
theorem C4_summarize_length_le (response : Str) (max_length : Nat) :
    (summarize_response response max_length).length ≤ max_length + 3 := by
  unfold summarize_response
  split
  · next h => omega
  · next h =>
    dsimp only
    split
    · exact clamp_length_le _ _
    · exact clamp_length_le _ _

/-- Counterexample to C4 as stated: summarizing "ab" with maximum length 1
yields "...." of length 4 > 1 (the final clamp truncates to the maximum and
then appends three more characters). -/
theorem C4_counterexample :
    ¬((summarize_response (strLit "ab") 1).length ≤ 1) := by decide

/-! ### Stage Orchestrator and Completion Invoker results -/

/-- C1 (amended): after orchestration the bundle has exactly the 7 fixed
stage ids in order, never an absent key; a successful stage's entry is the
completion response verbatim, a failed stage's entry is the failure-marker
string, which is never empty.  (The entry is empty exactly when the
completion response itself is empty.) -/
theorem C1_bundle_complete (outcome : Str → StepOutcome) :
    ((execute_circles_framework outcome).map Prod.fst = circles_steps) ∧
    (∀ p ∈ execute_circles_framework outcome,
      match outcome p.1 with
      | .success t => p.2 = t
      | .failure e => p.2 = strLit "Analysis step failed: " ++ e ∧ p.2 ≠ []) := by
  constructor
  · simp [execute_circles_framework, Function.comp_def]
  · intro p hp
    simp only [execute_circles_framework, List.mem_map] at hp
    obtain ⟨step, hstep, rfl⟩ := hp
    dsimp only
    cases houtcome : outcome step with
    | success t => simp [houtcome]
    | failure e => simp [houtcome, strLit]

/-- Witness for C1 (amended): a run whose every stage raises `boom`. -/
theorem C1_bundle_complete_witness :
    strLit "Analysis step failed: boom" = strLit "Analysis step failed: " ++ strLit "boom" ∧
      strLit "Analysis step failed: boom" ≠ ([] : Str) :=
  (C1_bundle_complete (fun _ => .failure (strLit "boom"))).2
    (strLit "circles_comprehend_the_situation", strLit "Analysis step failed: boom")
    (by decide)

/-- Counterexample to C1 as stated: when the completion call succeeds with
the empty string, the corresponding bundle entry is empty text — the claim
promises non-empty text for every entry. -/
theorem C1_counterexample :
    (execute_circles_framework (fun _ => .success [])).all (fun p => !p.2.isEmpty) = false := by
  decide

lemma estExceeds_preflight_false (p : Str) :
    estExceeds (preflightPrompt p) 5500 = false := by
  unfold preflightPrompt
  split
  · next h =>
    have hb := emergency_truncate_wc_le p 4000
    unfold estExceeds
    rw [decide_eq_false_iff_not]
    omega
  · next h => rwa [Bool.not_eq_true] at h

lemma preflightPrompt_idem (p : Str) :
    preflightPrompt (preflightPrompt p) = preflightPrompt p := by
  have h := estExceeds_preflight_false p
  show (if estExceeds (preflightPrompt p) 5500 then
      emergency_truncate_prompt (preflightPrompt p) 4000
    else preflightPrompt p) = preflightPrompt p
  rw [h]
  simp

/-- One rate-limit retry iteration of the loop: with attempts remaining, the
loop sleeps `(attempt + 1) × 2` and recurses on the same (pre-flighted)
prompt. -/
lemma call_groq_rec_rate_step (api : Nat → Str → Int → ApiResult)
    (mr fuel attempt : Nat) (prompt : Str) (m : Str)
    (hm : api attempt (preflightPrompt prompt) (preflightTokens prompt) = .err m)
    (hrl : isRateLimitErr m = true) (htk : isTokenLimitErr m = false)
    (hlt : attempt < mr) :
    call_groq_rec api mr (fuel + 1) attempt prompt =
      ((call_groq_rec api mr fuel (attempt + 1) (preflightPrompt prompt)).1,
        .sent attempt (preflightPrompt prompt) (preflightTokens prompt) ::
          .slept ((attempt + 1) * 2) ::
            (call_groq_rec api mr fuel (attempt + 1) (preflightPrompt prompt)).2) := by
  rw [call_groq_rec]
  dsimp only
  rw [hm]
  simp [htk, hrl, hlt]

/-- The exhausted rate-limit iteration: at `attempt = max_retries` the error
is re-raised. -/
lemma call_groq_rec_rate_final (api : Nat → Str → Int → ApiResult)
    (mr fuel attempt : Nat) (prompt : Str) (m : Str)
    (hm : api attempt (preflightPrompt prompt) (preflightTokens prompt) = .err m)
    (htk : isTokenLimitErr m = false) (heq : attempt = mr) :
    call_groq_rec api mr (fuel + 1) attempt prompt =
      (.error m, [.sent attempt (preflightPrompt prompt) (preflightTokens prompt)]) := by
  subst heq
  rw [call_groq_rec]
  dsimp only
  rw [hm]
  simp [htk]

/-- C2 (amended): when every completion call fails with an error classified
as rate-limit but not size-limit, the invoker sleeps 2 then 4 time-units,
every request carries the same prompt (the input as adjusted once by the
pre-flight size check — never touched by the rate-limit handler itself),
and after the attempt cap the rate-limit error is propagated.  Errors whose
text contains `rate_limit_exceeded` are instead classified as size-limit
and take the truncate-and-retry path (see the counterexample). -/
theorem C2_rate_limit_backoff (api : Nat → Str → Int → ApiResult) (p : Str)
    (H : ∀ a q t, ∃ m, api a q t = .err m ∧
      isRateLimitErr m = true ∧ isTokenLimitErr m = false) :
    sleepDurations (call_groq_api api p).2 = [2, 4] ∧
    (∀ q ∈ sentPrompts (call_groq_api api p).2, q = preflightPrompt p) ∧
    (∃ m, (call_groq_api api p).1 = .error m ∧ isRateLimitErr m = true) := by
  obtain ⟨m0, hm0, hrl0, htk0⟩ := H 0 (preflightPrompt p) (preflightTokens p)
  obtain ⟨m1, hm1, hrl1, htk1⟩ :=
    H 1 (preflightPrompt (preflightPrompt p)) (preflightTokens (preflightPrompt p))
  obtain ⟨m2, hm2, hrl2, htk2⟩ :=
    H 2 (preflightPrompt (preflightPrompt p)) (preflightTokens (preflightPrompt p))
  have s0 : call_groq_rec api 2 3 0 p =
      ((call_groq_rec api 2 2 1 (preflightPrompt p)).1,
        .sent 0 (preflightPrompt p) (preflightTokens p) ::
          .slept ((0 + 1) * 2) :: (call_groq_rec api 2 2 1 (preflightPrompt p)).2) :=
    call_groq_rec_rate_step api 2 2 0 p m0 hm0 hrl0 htk0 (by omega)
  have s1 : call_groq_rec api 2 2 1 (preflightPrompt p) =
      ((call_groq_rec api 2 1 2 (preflightPrompt p)).1,
        .sent 1 (preflightPrompt p) (preflightTokens (preflightPrompt p)) ::
          .slept ((1 + 1) * 2) :: (call_groq_rec api 2 1 2 (preflightPrompt p)).2) := by
    have h := call_groq_rec_rate_step api 2 1 1 (preflightPrompt p) m1 hm1 hrl1 htk1 (by omega)
    rwa [preflightPrompt_idem] at h
  have s2 : call_groq_rec api 2 1 2 (preflightPrompt p) =
      (.error m2, [.sent 2 (preflightPrompt p) (preflightTokens (preflightPrompt p))]) := by
    have h := call_groq_rec_rate_final api 2 0 2 (preflightPrompt p) m2 hm2 htk2 rfl
    rwa [preflightPrompt_idem] at h
  have hmain : call_groq_api api p = call_groq_rec api 2 3 0 p := rfl
  rw [hmain, s0, s1, s2]
  refine ⟨by simp [sleepDurations], ?_, ⟨m2, by simp, hrl2⟩⟩
  intro q hq
  simp only [sentPrompts, List.mem_cons, List.not_mem_nil, or_false] at hq
  rcases hq with rfl | rfl | rfl <;> rfl

/-- Witness for C2 (amended): a service that always answers with a plain
rate-limit error. -/
theorem C2_rate_limit_backoff_witness :
    sleepDurations (call_groq_api (fun _ _ _ => .err (strLit "rate_limit reached"))
        (strLit "hi")).2 = [2, 4] :=
  (C2_rate_limit_backoff (fun _ _ _ => .err (strLit "rate_limit reached")) (strLit "hi")
    (fun _ _ _ => ⟨strLit "rate_limit reached", rfl, by decide, by decide⟩)).1

/-- Counterexample to C2 as stated: the real rate-limit error code
`rate_limit_exceeded` is classified as a rate-limit failure
(`"rate_limit" in e.lower()`), yet it is intercepted by the size-limit
branch: the invoker neither sleeps nor propagates the error after the cap —
it retries with a truncated prompt and finally returns the degraded
placeholder. -/
theorem C2_counterexample :
    isRateLimitErr (strLit "rate_limit_exceeded") = true ∧
    sleepDurations (call_groq_api (fun _ _ _ => .err (strLit "rate_limit_exceeded"))
        (strLit "hello")).2 = [] ∧
    isErrorResult (call_groq_api (fun _ _ _ => .err (strLit "rate_limit_exceeded"))
        (strLit "hello")).1 = false := by
  decide

/-- C9: insight extraction is a pure function of the stage-response
mapping — two stores that agree (as mappings) on the 7 stage ids yield
identical insight bundles on every invocation; the keyword/line-pattern
fallback chain reads nothing else. -/
theorem C9_extraction_deterministic (r1 r2 : List (Str × Str))
    (h : ∀ k ∈ circles_steps, getD r1 k [] = getD r2 k []) :
    extract_circles_insights r1 = extract_circles_insights r2 := by
  have h1 := h (strLit "circles_comprehend_the_situation") (by decide)
  have h2 := h (strLit "circles_identify_the_customer") (by decide)
  have h3 := h (strLit "circles_report_the_customers_needs") (by decide)
  have h4 := h (strLit "circles_cut_through_prioritization") (by decide)
  have h5 := h (strLit "circles_list_solutions") (by decide)
  have h6 := h (strLit "circles_evaluate_trade_offs") (by decide)
  have h7 := h (strLit "circles_summarize_recommendations") (by decide)
  unfold extract_circles_insights
  rw [h1, h2, h3, h4, h5, h6, h7]

/-- Witness for C9: two stores differing only in an unrelated key. -/
theorem C9_extraction_deterministic_witness :
    extract_circles_insights [(strLit "circles_list_solutions", strLit "solution alpha")] =
      extract_circles_insights
        [(strLit "circles_list_solutions", strLit "solution alpha"),
         (strLit "unrelated_key", strLit "noise")] :=
  C9_extraction_deterministic _ _ (by decide)

lemma ite_nil_ne_nil {α : Type} [DecidableEq α] (l d : List α) (hd : d ≠ []) :
    (if l = [] then d else l) ≠ [] := by
  split
  · exact hd
  · next h => exact h

lemma one_le_ite_nil_length {α : Type} [DecidableEq α] (l d : List α) (hd : 1 ≤ d.length) :
    1 ≤ (if l = [] then d else l).length := by
  split
  · exact hd
  · next h => exact List.length_pos.mpr h

lemma one_le_min_ite_length {α : Type} [DecidableEq α] (n : Nat) (hn : 1 ≤ n) (l d : List α) (hd : d ≠ []) :
    1 ≤ min n (if l = [] then d else l).length := by
  have := List.length_pos.mpr (ite_nil_ne_nil l d hd)
  omega

lemma default_personas_ne_nil (text : Str) : generate_default_personas text ≠ [] := by
  unfold generate_default_personas
  dsimp only
  exact ite_nil_ne_nil _ _ (by simp)

/-- C8: every table-synthesis operation emits at least one row for every
insight bundle (empty insight texts included) — extraction misses fall back
to fixed default rows. -/
theorem C8_tables_at_least_one_row (insights : List (Str × Str)) :
    1 ≤ (generate_requirements_table_rows insights).length ∧
    1 ≤ (generate_personas_table_rows insights).length ∧
    1 ≤ (generate_stakeholder_table_rows insights).length ∧
    1 ≤ (generate_prioritization_table_rows insights).length := by
  refine ⟨?_, ?_, by simp [generate_stakeholder_table_rows], ?_⟩
  · unfold generate_requirements_table_rows
    dsimp only
    exact one_le_ite_nil_length _ _ (by simp)
  · unfold generate_personas_table_rows
    dsimp only
    rw [List.length_map, List.length_take]
    exact one_le_min_ite_length 4 (by omega) _ _ (default_personas_ne_nil _)
  · unfold generate_prioritization_table_rows
    dsimp only
    rw [List.length_map, List.enum_length, List.length_take]
    exact one_le_min_ite_length 5 (by omega) _ _ (by simp [genericPrioFeatures])

lemma lookup_updateSession (store : List (Str × PRDSession)) (sid : Str)
    (f : PRDSession → PRDSession) :
    lookupSession (updateSession store sid f) sid = (lookupSession store sid).map f := by
  induction store with
  | nil => rfl
  | cons q rest ih =>
    by_cases hq : q.1 = sid
    · simp [updateSession, lookupSession, hq]
    · simp only [updateSession, lookupSession, List.map_cons, if_neg hq] at *
      rw [List.find?_cons_of_neg _ (by simp [hq]), List.find?_cons_of_neg _ (by simp [hq])]
      exact ih

/-- C10: a `generate_prd` call that hits an existing session id leaves the
stored session's `product_idea`, `started_at`, `template_id`,
`conversation_data` (and `current_step`) untouched — the newly supplied
arguments are not written — and updates exactly its `responses` and
`circles_analysis` fields. -/
theorem C10_existing_session_preserved (outcome : Str → StepOutcome) (prd_text : Str)
    (now : Nat) (product_idea template_id : Str) (conversation_data : List (Str × Str))
    (session_id : Str) (store : List (Str × PRDSession)) (s0 : PRDSession)
    (h : lookupSession store session_id = some s0) :
    lookupSession (generate_prd outcome prd_text now product_idea template_id
        conversation_data session_id store).1 session_id =
      some { s0 with
        responses := execute_circles_framework outcome
        circles_analysis := some
          { report := analyze_circles_coverage prd_text
            circles_responses := execute_circles_framework outcome } } := by
  unfold generate_prd
  dsimp only
  rw [if_pos (by rw [h]; rfl)]
  rw [lookup_updateSession, lookup_updateSession, h]
  rfl

/-- Witness for C10: an existing session keeps its original idea, template,
creation time, and conversation data despite new arguments. -/
theorem C10_existing_session_preserved_witness :
    lookupSession (generate_prd (fun _ => .failure (strLit "x")) (strLit "doc") 7
        (strLit "new idea") (strLit "other_template") [(strLit "k", strLit "v")]
        (strLit "sid")
        [(strLit "sid",
          { product_idea := strLit "old idea"
            started_at := 5
            template_id := strLit "standard_template"
            conversation_data := []
            responses := []
            current_step := 0
            circles_analysis := none })]).1 (strLit "sid") =
      some { product_idea := strLit "old idea"
             started_at := 5
             template_id := strLit "standard_template"
             conversation_data := []
             responses := execute_circles_framework (fun _ => .failure (strLit "x"))
             current_step := 0
             circles_analysis := some
               { report := analyze_circles_coverage (strLit "doc")
                 circles_responses :=
                   execute_circles_framework (fun _ => .failure (strLit "x")) } } :=
  C10_existing_session_preserved (fun _ => .failure (strLit "x")) (strLit "doc") 7
    (strLit "new idea") (strLit "other_template") [(strLit "k", strLit "v")]
    (strLit "sid")
    [(strLit "sid",
      { product_idea := strLit "old idea"
        started_at := 5
        template_id := strLit "standard_template"
        conversation_data := []
        responses := []
        current_step := 0
        circles_analysis := none })]
    { product_idea := strLit "old idea"
      started_at := 5
      template_id := strLit "standard_template"
      conversation_data := []
      responses := []
      current_step := 0
      circles_analysis := none }
    (by decide)

end PRD
